import Mathlib

/-!
Verification of the numeric scoring core of the plant water-stress scripts
(`gemine.py` and `llava.py`).  Real arithmetic of the Python code is embedded
over `ℚ`; Python's `round(x, 2)` (round half to even on the scaled value) is
embedded as `rnd2`; Python strings are embedded as `List Char` with
`List.IsInfix` for the `in` substring test and `Char.toLower` for `.lower()`.
-/

/-- Python `round(x, 2)`: round `100*x` to the nearest integer, ties to even,
then divide by `100`. -/
def rnd2 (x : ℚ) : ℚ :=
  let y := x * 100
  let f := ⌊y⌋
  let r := y - f
  let n : ℤ :=
    if r > 1/2 then f + 1
    else if r < 1/2 then f
    else if f % 2 = 0 then f else f + 1
  (n : ℚ) / 100

/-- `np.mean` of a list of rationals (numpy, shared by both scripts). -/
def listMean (xs : List ℚ) : ℚ := xs.sum / xs.length

/-- The square of `np.std`: mean squared deviation from the mean. -/
def listVar (xs : List ℚ) : ℚ := listMean (xs.map (fun x => (x - listMean xs) ^ 2))

/-- `np.std` of a list of rationals: square root of the mean squared deviation. -/
noncomputable def np_std (xs : List ℚ) : ℝ := Real.sqrt (listVar xs)

/-- Python `float()` on a string made only of ASCII digits and dots:
defined iff there is at most one dot and at least one digit. -/
def pyFloat (cs : List Char) : Option ℚ :=
  match cs.splitOn '.' with
  | [a] => if a = [] then none else some (a.foldl (fun v c => 10 * v + (c.toNat - 48 : ℕ)) 0 : ℕ)
  | [a, b] =>
    if a = [] ∧ b = [] then none
    else some ((a.foldl (fun v c => 10 * v + (c.toNat - 48 : ℕ)) 0 : ℕ)
      + ((b.foldl (fun v c => 10 * v + (c.toNat - 48 : ℕ)) 0 : ℕ) : ℚ) / 10 ^ b.length)
  | _ => none

namespace Gemine

/-- `compute_rgvi` of `gemine.py` (lines 29–33): per pixel (red, green),
`np.mean(np.clip((green - red) / (green + red + 1e-5), -1, 1))`. -/
def compute_rgvi (px : List (ℚ × ℚ)) : ℚ :=
  listMean (px.map (fun p => min 1 (max (-1) ((p.2 - p.1) / (p.2 + p.1 + 1/100000)))))

/-- `compute_weather_stress` of `gemine.py` (lines 35–38):
`min(1, (max(0, abs(t-25)/20) + max(0, abs(h-65)/50)) / 2)`. -/
def compute_weather_stress (temp_c humidity : ℚ) : ℚ :=
  let temp_stress := max 0 (|temp_c - 25| / 20)
  let hum_stress := max 0 (|humidity - 65| / 50)
  min 1 ((temp_stress + hum_stress) / 2)

/-- `soil_modifier` of `gemine.py` (lines 40–45): lowercase the string, then
test the substrings "sandy", "clay", "loam" in that order. -/
def soil_modifier (soil_type : List Char) : ℚ :=
  let s := soil_type.map Char.toLower
  if "sandy".data <:+: s then 12/10
  else if "clay".data <:+: s then 11/10
  else if "loam".data <:+: s then 9/10
  else 1

/-- The dictionary lookup `base_water.get(plant_size, 1.5)` inside
`irrigation_recommendation` (`gemine.py` line 48–49). -/
def base_water (plant_size : List Char) : ℚ :=
  if plant_size = "small".data then 1/2
  else if plant_size = "medium".data then 3/2
  else if plant_size = "large".data then 3
  else 3/2

/-- `irrigation_recommendation` of `gemine.py` (lines 47–49):
`round(base_water.get(plant_size, 1.5) * stress_score * 2, 2)`. -/
def irrigation_recommendation (stress_score : ℚ) (plant_size : List Char) : ℚ :=
  rnd2 (base_water plant_size * stress_score * 2)

/-- `water_deficit_index` of `gemine.py` (lines 56–57): `round(stress_score, 2)`. -/
def water_deficit_index (stress_score : ℚ) : ℚ :=
  rnd2 stress_score

/-- `ndvi_stress` of the main block of `gemine.py` (line 122):
`1 - max(0, min(1, (rgvi_score + 1) / 2))`. -/
def ndvi_stress (rgvi_score : ℚ) : ℚ :=
  1 - max 0 (min 1 ((rgvi_score + 1) / 2))

/-- `combined_stress` of the main block of `gemine.py` (lines 124–125):
`min(1, (0.5 * ndvi_stress + 0.5 * weather_stress) * soil_modifier(soil_type))`. -/
def combined_stress (rgvi_score temp_c humidity : ℚ) (soil_type : List Char) : ℚ :=
  min 1 ((1/2 * ndvi_stress rgvi_score + 1/2 * compute_weather_stress temp_c humidity)
    * soil_modifier soil_type)

/-- The status bucketing of the main block of `gemine.py` (lines 127–132). -/
def stress_status (c : ℚ) : String :=
  if c < 3/10 then "Low water stress – plant looks healthy."
  else if c < 6/10 then "Moderate water stress – some irrigation may help."
  else "High water stress – urgent watering required."

/-- `confidence_from_rgvi` of `gemine.py` (lines 51–54): `min(1.0, std/50.0)`
where `std` is the green-channel standard deviation. -/
noncomputable def confidence_from_rgvi (greens : List ℚ) : ℝ :=
  min 1 (np_std greens / 50)

/-- The deterministic reply-processing part of `get_accuracy_from_gemini` of
`gemine.py` (lines 84–92): keep digits and dots, parse as float, clamp with
`max(0, min(v, 100))`; `None` when parsing fails. -/
def get_accuracy_from_gemini (text : List Char) : Option ℚ :=
  match pyFloat (text.filter (fun ch => ch.isDigit || ch = '.')) with
  | none => none
  | some v => some (max 0 (min v 100))

end Gemine

namespace Llava

/-- `compute_rgvi` of `llava.py` (lines 62–67), textually identical to the
`gemine.py` version. -/
def compute_rgvi (px : List (ℚ × ℚ)) : ℚ :=
  listMean (px.map (fun p => min 1 (max (-1) ((p.2 - p.1) / (p.2 + p.1 + 1/100000)))))

/-- `compute_weather_stress` of `llava.py` (lines 69–73). -/
def compute_weather_stress (temp_c humidity : ℚ) : ℚ :=
  let temp_stress := max 0 (|temp_c - 25| / 20)
  let hum_stress := max 0 (|humidity - 65| / 50)
  min 1 ((temp_stress + hum_stress) / 2)

/-- `soil_modifier` of `llava.py` (lines 75–81). -/
def soil_modifier (soil_type : List Char) : ℚ :=
  let s := soil_type.map Char.toLower
  if "sandy".data <:+: s then 12/10
  else if "clay".data <:+: s then 11/10
  else if "loam".data <:+: s then 9/10
  else 1

/-- `base_water.get(plant_size, 1.5)` inside `irrigation_recommendation` of
`llava.py` (lines 109–110). -/
def base_water (plant_size : List Char) : ℚ :=
  if plant_size = "small".data then 1/2
  else if plant_size = "medium".data then 3/2
  else if plant_size = "large".data then 3
  else 3/2

/-- `irrigation_recommendation` of `llava.py` (lines 105–110). -/
def irrigation_recommendation (stress_score : ℚ) (plant_size : List Char) : ℚ :=
  rnd2 (base_water plant_size * stress_score * 2)

/-- `water_deficit_index` of `llava.py` (lines 101–103). -/
def water_deficit_index (stress_score : ℚ) : ℚ :=
  rnd2 stress_score

/-- `confidence_from_rgvi` of `llava.py` (lines 112–118). -/
noncomputable def confidence_from_rgvi (greens : List ℚ) : ℝ :=
  min 1 (np_std greens / 50)

/-- The deterministic reply-processing part of `get_accuracy_from_llm` of
`llava.py` (lines 120–138): keep digits and dots, parse as float, clamp with
`min(100.0, max(0.0, v))`; `None` when parsing fails. -/
def get_accuracy_from_llm (result : List Char) : Option ℚ :=
  match pyFloat (result.filter (fun ch => ch.isDigit || ch = '.')) with
  | none => none
  | some v => some (min 100 (max 0 v))

end Llava

/-! ## Helper lemmas -/

/-- Rounding to two decimals moves a value by at most `1/200`. -/
lemma rnd2_abs_sub_le (x : ℚ) : |rnd2 x - x| ≤ 1/200 := by
  have h0 : (⌊x * 100⌋ : ℚ) ≤ x * 100 := Int.floor_le _
  have h1 : x * 100 < ⌊x * 100⌋ + 1 := Int.lt_floor_add_one _
  simp only [rnd2]
  rw [abs_le]
  split_ifs with hgt hlt heven <;> push_cast <;> constructor <;> linarith

/-- Rounding to two decimals is exact on integer multiples of `1/100`. -/
lemma rnd2_int_div (k : ℤ) : rnd2 ((k : ℚ) / 100) = (k : ℚ) / 100 := by
  have hy : ((k : ℚ) / 100) * 100 = (k : ℚ) := by
    field_simp
  simp only [rnd2, hy, Int.floor_intCast]
  norm_num

lemma ndvi_stress_nonneg (r : ℚ) : 0 ≤ Gemine.ndvi_stress r := by
  have h : max 0 (min 1 ((r + 1) / 2)) ≤ 1 := max_le (by norm_num) (min_le_left _ _)
  simp only [Gemine.ndvi_stress]
  linarith

lemma compute_weather_stress_nonneg (t h : ℚ) : 0 ≤ Gemine.compute_weather_stress t h := by
  have ht : (0 : ℚ) ≤ max 0 (|t - 25| / 20) := le_max_left _ _
  have hh : (0 : ℚ) ≤ max 0 (|h - 65| / 50) := le_max_left _ _
  simp only [Gemine.compute_weather_stress]
  exact le_min (by norm_num) (by linarith)

lemma soil_modifier_nonneg (s : List Char) : 0 ≤ Gemine.soil_modifier s := by
  simp only [Gemine.soil_modifier]
  split_ifs <;> norm_num

/-! ## Claims -/

/-- C1: for every vegetation-index, temperature, humidity and soil-type input
combination, the combined stress score
`min(1, (0.5*vegStress + 0.5*weatherStress) * soil_modifier)` lies in `[0, 1]`. -/
theorem combined_stress_in_unit_interval (rgvi t h : ℚ) (soil : List Char) :
    0 ≤ Gemine.combined_stress rgvi t h soil ∧ Gemine.combined_stress rgvi t h soil ≤ 1 := by
  constructor
  · have hv := ndvi_stress_nonneg rgvi
    have hw := compute_weather_stress_nonneg t h
    have hs := soil_modifier_nonneg soil
    exact le_min (by norm_num) (mul_nonneg (by linarith) hs)
  · exact min_le_left _ _

/-- C2: `compute_weather_stress(25, 65) = 0`; the result is monotone
non-decreasing in the absolute deviation of the temperature from 25 and in the
absolute deviation of the humidity from 65, and always at most 1. -/
theorem compute_weather_stress_props :
    Gemine.compute_weather_stress 25 65 = 0 ∧
    (∀ t₁ t₂ h : ℚ, |t₁ - 25| ≤ |t₂ - 25| →
      Gemine.compute_weather_stress t₁ h ≤ Gemine.compute_weather_stress t₂ h) ∧
    (∀ t h₁ h₂ : ℚ, |h₁ - 65| ≤ |h₂ - 65| →
      Gemine.compute_weather_stress t h₁ ≤ Gemine.compute_weather_stress t h₂) ∧
    (∀ t h : ℚ, Gemine.compute_weather_stress t h ≤ 1) := by
  refine ⟨?_, ?_, ?_, ?_⟩
  · norm_num [Gemine.compute_weather_stress]
  · intro t₁ t₂ h hd
    simp only [Gemine.compute_weather_stress]
    gcongr
  · intro t h₁ h₂ hd
    simp only [Gemine.compute_weather_stress]
    gcongr
  · intro t h
    exact min_le_left _ _

/-- C2 witness: concrete instances of the monotonicity hypotheses. -/
theorem compute_weather_stress_props_witness :
    Gemine.compute_weather_stress 30 65 ≤ Gemine.compute_weather_stress 45 65 ∧
    Gemine.compute_weather_stress 25 60 ≤ Gemine.compute_weather_stress 25 10 :=
  ⟨compute_weather_stress_props.2.1 30 45 65 (by norm_num),
   compute_weather_stress_props.2.2.1 25 60 10 (by norm_num)⟩

/-- C3: with vegetation index -1, temperature 45, humidity 10 and soil
"sandy", the combined stress is exactly 1 and the status is the
high-water-stress category. -/
theorem end_to_end_high_stress :
    Gemine.combined_stress (-1) 45 10 "sandy".data = 1 ∧
    Gemine.stress_status (Gemine.combined_stress (-1) 45 10 "sandy".data)
      = "High water stress – urgent watering required." := by
  have h : Gemine.combined_stress (-1) 45 10 "sandy".data = 1 := by
    simp +decide [Gemine.combined_stress, Gemine.ndvi_stress, Gemine.compute_weather_stress,
      Gemine.soil_modifier]
    norm_num
  refine ⟨h, ?_⟩
  rw [h]
  norm_num [Gemine.stress_status]

/-- C4: with vegetation index 1, temperature 25, humidity 65 and soil "loam",
the combined stress is exactly 0 and the status is the low-water-stress
category. -/
theorem end_to_end_low_stress :
    Gemine.combined_stress 1 25 65 "loam".data = 0 ∧
    Gemine.stress_status (Gemine.combined_stress 1 25 65 "loam".data)
      = "Low water stress – plant looks healthy." := by
  have h : Gemine.combined_stress 1 25 65 "loam".data = 0 := by
    simp +decide [Gemine.combined_stress, Gemine.ndvi_stress, Gemine.compute_weather_stress,
      Gemine.soil_modifier]
  refine ⟨h, ?_⟩
  rw [h]
  norm_num [Gemine.stress_status]

/-- C5 counterexample: the returned volume is not exactly
`base * stress * 2` — at stress `1/3` and size "small" the code returns
`round(1/3, 2) = 0.33`, not `1/3`. -/
theorem irrigation_recommendation_not_exactly_linear :
    Gemine.irrigation_recommendation (1/3) "small".data ≠ 1/2 * (1/3) * 2 := by
  have h : Gemine.base_water "small".data = 1/2 := by
    simp only [Gemine.base_water]
    rw [if_pos (by decide)]
  norm_num [Gemine.irrigation_recommendation, h, rnd2]

/-- C5 (amended): `irrigation_recommendation(0, "small") = 0`; the returned
volume is `base * stress * 2` rounded to two decimals, hence within `1/200` of
exact linear scaling; an unrecognized size string behaves as "medium". -/
theorem irrigation_recommendation_props :
    Gemine.irrigation_recommendation 0 "small".data = 0 ∧
    (∀ s : ℚ, ∀ size : List Char,
      |Gemine.irrigation_recommendation s size - Gemine.base_water size * s * 2| ≤ 1/200) ∧
    (∀ s : ℚ, ∀ size : List Char, size ≠ "small".data → size ≠ "medium".data →
      size ≠ "large".data →
      Gemine.irrigation_recommendation s size = Gemine.irrigation_recommendation s "medium".data) := by
  refine ⟨?_, ?_, ?_⟩
  · have h : Gemine.base_water "small".data = 1/2 := by
      simp only [Gemine.base_water]
      rw [if_pos (by decide)]
    have h0 : Gemine.base_water "small".data * 0 * 2 = ((0 : ℤ) : ℚ) / 100 := by
      rw [h]; norm_num
    simp only [Gemine.irrigation_recommendation, h0, rnd2_int_div]
    norm_num
  · intro s size
    exact rnd2_abs_sub_le _
  · intro s size h₁ h₂ h₃
    have hb : Gemine.base_water size = 3/2 := by
      simp only [Gemine.base_water]
      rw [if_neg h₁, if_neg h₂, if_neg h₃]
    have hm : Gemine.base_water "medium".data = 3/2 := by rfl
    simp only [Gemine.irrigation_recommendation, hb, hm]

/-- C5 witness: an unrecognized size ("tiny") gives the same volume as
"medium", and the concrete instances of the other conjuncts hold. -/
theorem irrigation_recommendation_props_witness :
    Gemine.irrigation_recommendation 1 "tiny".data
      = Gemine.irrigation_recommendation 1 "medium".data ∧
    |Gemine.irrigation_recommendation 1 "tiny".data
      - Gemine.base_water "tiny".data * 1 * 2| ≤ 1/200 :=
  ⟨irrigation_recommendation_props.2.2 1 "tiny".data (by decide) (by decide) (by decide),
   irrigation_recommendation_props.2.1 1 "tiny".data⟩

/-- C6 counterexample: "sandy clay" contains "clay" but is mapped to `1.2`
(the "sandy" rule fires first), not `1.1`. -/
theorem soil_modifier_clay_overridden :
    ("clay".data <:+: "sandy clay".data.map Char.toLower) ∧
    Gemine.soil_modifier "sandy clay".data ≠ 11/10 := by
  have h : Gemine.soil_modifier "sandy clay".data = 12/10 := by
    simp only [Gemine.soil_modifier]
    rw [if_pos (by decide)]
  exact ⟨by decide, by rw [h]; norm_num⟩

/-- C6 (amended): `soil_modifier` is case-insensitive (it factors through
lower-casing); a string containing "sandy" maps to 1.2; one containing "clay"
but not "sandy" maps to 1.1; one containing "loam" but neither earlier keyword
maps to 0.9; a string containing none of the keywords maps to 1.0. -/
theorem soil_modifier_props :
    (∀ s₁ s₂ : List Char, s₁.map Char.toLower = s₂.map Char.toLower →
      Gemine.soil_modifier s₁ = Gemine.soil_modifier s₂) ∧
    (∀ s : List Char, "sandy".data <:+: s.map Char.toLower →
      Gemine.soil_modifier s = 12/10) ∧
    (∀ s : List Char, ¬ "sandy".data <:+: s.map Char.toLower →
      "clay".data <:+: s.map Char.toLower → Gemine.soil_modifier s = 11/10) ∧
    (∀ s : List Char, ¬ "sandy".data <:+: s.map Char.toLower →
      ¬ "clay".data <:+: s.map Char.toLower → "loam".data <:+: s.map Char.toLower →
      Gemine.soil_modifier s = 9/10) ∧
    (∀ s : List Char, ¬ "sandy".data <:+: s.map Char.toLower →
      ¬ "clay".data <:+: s.map Char.toLower → ¬ "loam".data <:+: s.map Char.toLower →
      Gemine.soil_modifier s = 1) := by
  refine ⟨?_, ?_, ?_, ?_, ?_⟩
  · intro s₁ s₂ hmap
    simp only [Gemine.soil_modifier, hmap]
  · intro s hs
    simp only [Gemine.soil_modifier]
    rw [if_pos hs]
  · intro s hs hc
    simp only [Gemine.soil_modifier]
    rw [if_neg hs, if_pos hc]
  · intro s hs hc hl
    simp only [Gemine.soil_modifier]
    rw [if_neg hs, if_neg hc, if_pos hl]
  · intro s hs hc hl
    simp only [Gemine.soil_modifier]
    rw [if_neg hs, if_neg hc, if_neg hl]

/-- C6 witness: concrete soil strings exercising every conjunct, including a
case-variant pair. -/
theorem soil_modifier_props_witness :
    Gemine.soil_modifier "SANDY soil".data = 12/10 ∧
    Gemine.soil_modifier "red Clay".data = 11/10 ∧
    Gemine.soil_modifier "LOAMY".data = 9/10 ∧
    Gemine.soil_modifier "peat".data = 1 ∧
    Gemine.soil_modifier "Sandy".data = Gemine.soil_modifier "sANDY".data :=
  ⟨soil_modifier_props.2.1 "SANDY soil".data (by decide),
   soil_modifier_props.2.2.1 "red Clay".data (by decide) (by decide),
   soil_modifier_props.2.2.2.1 "LOAMY".data (by decide) (by decide) (by decide),
   soil_modifier_props.2.2.2.2 "peat".data (by decide) (by decide) (by decide),
   soil_modifier_props.1 "Sandy".data "sANDY".data (by decide)⟩

/-- C7 counterexample: `water_deficit_index` rounds, so it is not the
identity — at `1/3` it returns `0.33`. -/
theorem water_deficit_index_not_identity :
    Gemine.water_deficit_index (1/3) ≠ 1/3 := by
  norm_num [Gemine.water_deficit_index, rnd2]

/-- C7 (amended): the Water Deficit Index is the stress score rounded to two
decimals: it is always within `1/200` of the stress score, and equals it
exactly on every integer multiple of `1/100`. -/
theorem water_deficit_index_props :
    (∀ s : ℚ, |Gemine.water_deficit_index s - s| ≤ 1/200) ∧
    (∀ k : ℤ, Gemine.water_deficit_index ((k : ℚ) / 100) = (k : ℚ) / 100) :=
  ⟨fun s => rnd2_abs_sub_le s, fun k => rnd2_int_div k⟩

/-- C8: for every reply string, the confidence parsers of both backends are
total: each returns either `none` (parse failure, the "indeterminate" result)
or a numeric value clamped to `[0, 100]`. -/
theorem get_accuracy_clamped_or_none (text result : List Char) :
    (Gemine.get_accuracy_from_gemini text = none ∨
      ∃ v : ℚ, Gemine.get_accuracy_from_gemini text = some v ∧ 0 ≤ v ∧ v ≤ 100) ∧
    (Llava.get_accuracy_from_llm result = none ∨
      ∃ v : ℚ, Llava.get_accuracy_from_llm result = some v ∧ 0 ≤ v ∧ v ≤ 100) := by
  constructor
  · simp only [Gemine.get_accuracy_from_gemini]
    cases hp : pyFloat (text.filter (fun ch => ch.isDigit || ch = '.')) with
    | none => exact Or.inl rfl
    | some v =>
      refine Or.inr ⟨max 0 (min v 100), rfl, le_max_left _ _, ?_⟩
      exact max_le (by norm_num) (min_le_right _ _)
  · simp only [Llava.get_accuracy_from_llm]
    cases hp : pyFloat (result.filter (fun ch => ch.isDigit || ch = '.')) with
    | none => exact Or.inl rfl
    | some v =>
      refine Or.inr ⟨min 100 (max 0 v), rfl, ?_, min_le_left _ _⟩
      exact le_min (by norm_num) (le_max_left _ _)

/-- C9: the duplicated numeric core functions of `gemine.py` and `llava.py`
are extensionally equal: on every input the two scripts' `compute_rgvi`,
`compute_weather_stress`, `soil_modifier`, `irrigation_recommendation`,
`confidence_from_rgvi` and `water_deficit_index` agree. -/
theorem backend_cores_extensionally_equal :
    (∀ px : List (ℚ × ℚ), Gemine.compute_rgvi px = Llava.compute_rgvi px) ∧
    (∀ t h : ℚ, Gemine.compute_weather_stress t h = Llava.compute_weather_stress t h) ∧
    (∀ s : List Char, Gemine.soil_modifier s = Llava.soil_modifier s) ∧
    (∀ v : ℚ, ∀ size : List Char,
      Gemine.irrigation_recommendation v size = Llava.irrigation_recommendation v size) ∧
    (∀ g : List ℚ, Gemine.confidence_from_rgvi g = Llava.confidence_from_rgvi g) ∧
    (∀ v : ℚ, Gemine.water_deficit_index v = Llava.water_deficit_index v) :=
  ⟨fun _ => rfl, fun _ _ => rfl, fun _ => rfl, fun _ _ => rfl, fun _ => rfl, fun _ => rfl⟩

/-- C10 counterexample: "sandy clay loam" contains both "clay" and "loam" yet
is mapped to `1.2`, not `1.1`, because the "sandy" rule fires first. -/
theorem soil_modifier_clay_loam_overridden :
    ("clay".data <:+: "sandy clay loam".data.map Char.toLower) ∧
    ("loam".data <:+: "sandy clay loam".data.map Char.toLower) ∧
    Gemine.soil_modifier "sandy clay loam".data ≠ 11/10 := by
  have h : Gemine.soil_modifier "sandy clay loam".data = 12/10 := by
    simp only [Gemine.soil_modifier]
    rw [if_pos (by decide)]
  exact ⟨by decide, by decide, by rw [h]; norm_num⟩

/-- C10 (amended): the substring rules are tried in the order sandy, clay,
loam, and the earliest matching keyword wins: any string containing "sandy"
(in particular one also containing "clay") yields 1.2, and any string
containing "clay" and "loam" but not "sandy" yields 1.1. -/
theorem soil_modifier_precedence :
    (∀ s : List Char, "sandy".data <:+: s.map Char.toLower →
      "clay".data <:+: s.map Char.toLower → Gemine.soil_modifier s = 12/10) ∧
    (∀ s : List Char, ¬ "sandy".data <:+: s.map Char.toLower →
      "clay".data <:+: s.map Char.toLower → "loam".data <:+: s.map Char.toLower →
      Gemine.soil_modifier s = 11/10) := by
  constructor
  · intro s hs _
    simp only [Gemine.soil_modifier]
    rw [if_pos hs]
  · intro s hs hc _
    simp only [Gemine.soil_modifier]
    rw [if_neg hs, if_pos hc]

/-- C10 witness: concrete strings with two keywords each. -/
theorem soil_modifier_precedence_witness :
    Gemine.soil_modifier "sandyclay".data = 12/10 ∧
    Gemine.soil_modifier "clay loam".data = 11/10 :=
  ⟨soil_modifier_precedence.1 "sandyclay".data (by decide) (by decide),
   soil_modifier_precedence.2 "clay loam".data (by decide) (by decide) (by decide)⟩
